import Mathlib

set_option maxRecDepth 8000

namespace MusicPresence

/- Shallow embedding of kernoeb/telegram-macos-music-discord-presence
   (src/index.ts; src/tray.ts mirrors the parts cited by the claims).
   JS strings are lists of characters, nullable values are Option, and
   JS numbers are modelled as integers: epoch milliseconds, whole seconds
   and playback rates; every arithmetic step the claims exercise is
   integer-valued, and the formulas are identical over the reals. -/

abbrev Str := List Char

/-- JS truthiness of a nullable string: truthy iff non-null and nonempty. -/
def jsTruthyS (o : Option Str) : Bool :=
  match o with
  | some s => !s.isEmpty
  | none => false

/-- Value of a nullable string where JS coerces null/undefined to the empty string. -/
def optStr (o : Option Str) : Str := o.getD []

/-- Whitespace class of the JS regex used by the source, modelled on the ASCII range
(space, tab, line feed, carriage return, vertical tab, form feed). -/
def isWsChar (c : Char) : Bool :=
  c = ' ' || c = Char.ofNat 9 || c = Char.ofNat 10 || c = Char.ofNat 13 ||
  c = Char.ofNat 11 || c = Char.ofNat 12

/-- Punctuation removed by normalizeSearchTerm (src/index.ts line 270):
exclamation, question mark, period, comma, semicolon, colon, apostrophe,
double quote, parentheses, square brackets and curly brackets. -/
def isPunctChar (c : Char) : Bool :=
  c = '!' || c = '?' || c = '.' || c = ',' || c = ';' || c = ':' ||
  c = Char.ofNat 39 || c = Char.ofNat 34 || c = '(' || c = ')' ||
  c = '[' || c = ']' || c = Char.ofNat 123 || c = Char.ofNat 125

/-- Combining diacritical marks U+0300 to U+036F, the range stripped at
src/index.ts line 269. -/
def isCombiningMark (c : Char) : Bool :=
  768 ≤ c.toNat && c.toNat ≤ 879

/-- Canonical (NFD) decomposition of one character, modelling the source's
normalize with form NFD for the common precomposed Latin letters; other
characters (all of ASCII in particular, where NFD is the identity) map to
themselves. -/
def nfdChar (c : Char) : Str :=
  if c = 'á' then ['a', Char.ofNat 769] else
  if c = 'à' then ['a', Char.ofNat 768] else
  if c = 'â' then ['a', Char.ofNat 770] else
  if c = 'ä' then ['a', Char.ofNat 776] else
  if c = 'ã' then ['a', Char.ofNat 771] else
  if c = 'é' then ['e', Char.ofNat 769] else
  if c = 'è' then ['e', Char.ofNat 768] else
  if c = 'ê' then ['e', Char.ofNat 770] else
  if c = 'ë' then ['e', Char.ofNat 776] else
  if c = 'í' then ['i', Char.ofNat 769] else
  if c = 'î' then ['i', Char.ofNat 770] else
  if c = 'ï' then ['i', Char.ofNat 776] else
  if c = 'ó' then ['o', Char.ofNat 769] else
  if c = 'ô' then ['o', Char.ofNat 770] else
  if c = 'ö' then ['o', Char.ofNat 776] else
  if c = 'õ' then ['o', Char.ofNat 771] else
  if c = 'ú' then ['u', Char.ofNat 769] else
  if c = 'û' then ['u', Char.ofNat 770] else
  if c = 'ü' then ['u', Char.ofNat 776] else
  if c = 'ñ' then ['n', Char.ofNat 771] else
  if c = 'ç' then ['c', Char.ofNat 807] else
  if c = 'É' then ['E', Char.ofNat 769] else
  if c = 'È' then ['E', Char.ofNat 768] else
  if c = 'À' then ['A', Char.ofNat 768] else
  if c = 'Ç' then ['C', Char.ofNat 807] else
  [c]

/-- JS toLowerCase, modelled on the ASCII range (Char.toLower lowers A..Z). -/
def toLowerStr (s : Str) : Str := s.map Char.toLower

/-- Replace every maximal run of whitespace by a single space
(the replace of whitespace-runs at src/index.ts line 271). -/
def collapseWsAux : Bool → Str → Str
  | _, [] => []
  | prevWs, c :: rest =>
    if isWsChar c then
      if prevWs then collapseWsAux true rest else ' ' :: collapseWsAux true rest
    else c :: collapseWsAux false rest

def collapseWs (s : Str) : Str := collapseWsAux false s

/-- JS String.trim on the modelled whitespace class. -/
def trimStr (s : Str) : Str :=
  ((s.dropWhile isWsChar).reverse.dropWhile isWsChar).reverse

/-- normalizeSearchTerm (src/index.ts lines 266 to 273): NFD-decompose, strip
diacritics, strip punctuation, collapse whitespace, trim. -/
def normalizeSearchTerm (term : Str) : Str :=
  trimStr (collapseWs ((((term.map nfdChar).flatten).filter
    (fun c => !isCombiningMark c)).filter (fun c => !isPunctChar c)))

/-- JS a.includes(b) as isSubstr b a: the needle occurs contiguously in the hay. -/
def isSubstr (needle hay : Str) : Bool :=
  hay.tails.any (fun t => needle.isPrefixOf t)

/-- Splitting on runs of whitespace, dropping empty pieces. JS split on the
whitespace regex can yield one leading empty piece; every use in the source
filters pieces by length greater than 2, so dropping empties is faithful. -/
def wordsAux : Str → Str → List Str
  | cur, [] => if cur.isEmpty then [] else [cur.reverse]
  | cur, c :: rest =>
    if isWsChar c then
      if cur.isEmpty then wordsAux [] rest else cur.reverse :: wordsAux [] rest
    else wordsAux (c :: cur) rest

def splitWsWords (s : Str) : List Str := wordsAux [] s

/-- JS hay.indexOf(needle) as an optional index of the first occurrence. -/
def subIdxAux (needle : Str) : Str → Nat → Option Nat
  | [], i => if needle.isEmpty then some i else none
  | c :: rest, i =>
    if needle.isPrefixOf (c :: rest) then some i else subIdxAux needle rest (i + 1)

def subIdx (needle hay : Str) : Option Nat := subIdxAux needle hay 0

/-- JS String.replace with a plain-string pattern: replace the first occurrence. -/
def jsReplaceFirst (s pat rep : Str) : Str :=
  match subIdx pat s with
  | some i => s.take i ++ rep ++ s.drop (i + pat.length)
  | none => s

/-- Multi-artist separators of getFirstArtist (src/index.ts line 277). -/
def artistSeparators : List Str :=
  [",".data, " & ".data, " feat.".data, " ft.".data, " featuring ".data, " x ".data]

/-- One pass of the getFirstArtist loop: find the separator case-insensitively,
cut strictly positive occurrences. -/
def cutAtSeparator (result : Str) (sep : Str) : Str :=
  match subIdx (toLowerStr sep) (toLowerStr result) with
  | some idx => if 0 < idx then result.take idx else result
  | none => result

/-- getFirstArtist (src/index.ts lines 275 to 286). -/
def getFirstArtist (artist : Str) : Str :=
  trimStr (artistSeparators.foldl cutAtSeparator artist)

/-- The two fields of a provider result consumed by matchesResult. -/
structure SearchResult where
  trackName : Option Str
  artistName : Option Str
deriving DecidableEq

/-- matchesResult (src/index.ts lines 288 to 311). -/
def matchesResult (result : SearchResult) (expectedTitle : Str)
    (expectedArtist : Option Str) : Bool :=
  let resultTrack := toLowerStr (normalizeSearchTerm (optStr result.trackName))
  let resultArtist := toLowerStr (normalizeSearchTerm (optStr result.artistName))
  let title := toLowerStr expectedTitle
  let artist := toLowerStr (optStr expectedArtist)
  let artistMatches := !(jsTruthyS expectedArtist) ||
    isSubstr artist resultArtist ||
    isSubstr resultArtist artist ||
    (splitWsWords resultArtist).any (fun w => decide (2 < w.length) && isSubstr w artist)
  let titleWords := (splitWsWords title).filter (fun w => decide (2 < w.length))
  let resultWords := (splitWsWords resultTrack).filter (fun w => decide (2 < w.length))
  let titleMatches := titleWords.any (fun w => resultWords.contains w) ||
    resultWords.any (fun w => titleWords.contains w)
  artistMatches && (titleMatches || isSubstr title resultTrack || isSubstr resultTrack title)

lemma isSubstr_nil (hay : Str) : isSubstr [] hay = true := by
  cases hay with
  | nil => rfl
  | cons a t => simp [isSubstr, List.tails_cons]

/-- Artist clause of the match predicate as worded by the claim: no artist was
expected, or the normalized result-artist contains the expected artist, or
vice versa, or some token of length greater than 2 of the result-artist is a
substring of the expected artist. Comparisons are case-insensitive, as at the
call sites. -/
def specArtistMatch (result : SearchResult) (expectedArtist : Option Str) : Prop :=
  expectedArtist = none ∨
  isSubstr (toLowerStr (optStr expectedArtist))
    (toLowerStr (normalizeSearchTerm (optStr result.artistName))) = true ∨
  isSubstr (toLowerStr (normalizeSearchTerm (optStr result.artistName)))
    (toLowerStr (optStr expectedArtist)) = true ∨
  ∃ w ∈ splitWsWords (toLowerStr (normalizeSearchTerm (optStr result.artistName))),
    2 < w.length ∧ isSubstr w (toLowerStr (optStr expectedArtist)) = true

/-- Title clause of the match predicate as worded by the claim: the two token
sets (tokens of length greater than 2) share at least one token, or one title
string is a substring of the other. -/
def specTitleMatch (result : SearchResult) (expectedTitle : Str) : Prop :=
  (∃ w, 2 < w.length ∧ w ∈ splitWsWords (toLowerStr expectedTitle) ∧
      w ∈ splitWsWords (toLowerStr (normalizeSearchTerm (optStr result.trackName)))) ∨
  isSubstr (toLowerStr expectedTitle)
    (toLowerStr (normalizeSearchTerm (optStr result.trackName))) = true ∨
  isSubstr (toLowerStr (normalizeSearchTerm (optStr result.trackName)))
    (toLowerStr expectedTitle) = true

lemma artistClause_iff (RA : Str) (a : Option Str) :
    (!(jsTruthyS a) ||
      isSubstr (toLowerStr (optStr a)) RA ||
      isSubstr RA (toLowerStr (optStr a)) ||
      (splitWsWords RA).any
        (fun w => decide (2 < w.length) && isSubstr w (toLowerStr (optStr a)))) = true ↔
    (a = none ∨
      isSubstr (toLowerStr (optStr a)) RA = true ∨
      isSubstr RA (toLowerStr (optStr a)) = true ∨
      ∃ w ∈ splitWsWords RA, 2 < w.length ∧ isSubstr w (toLowerStr (optStr a)) = true) := by
  cases a with
  | none => simp [jsTruthyS]
  | some s =>
    cases s with
    | nil => simp [jsTruthyS, optStr, toLowerStr, isSubstr_nil]
    | cons c cs =>
      simp only [jsTruthyS, optStr, Option.getD, List.isEmpty_cons, Bool.not_true,
        Bool.false_or, Bool.or_eq_true, List.any_eq_true, Bool.and_eq_true,
        decide_eq_true_eq, reduceCtorEq, false_or]
      tauto

lemma titleClause_iff (TL RT : Str) :
    (((splitWsWords TL).filter (fun w => decide (2 < w.length))).any
        (fun w => ((splitWsWords RT).filter (fun w => decide (2 < w.length))).contains w) ||
      ((splitWsWords RT).filter (fun w => decide (2 < w.length))).any
        (fun w => ((splitWsWords TL).filter (fun w => decide (2 < w.length))).contains w) ||
      isSubstr TL RT || isSubstr RT TL) = true ↔
    ((∃ w, 2 < w.length ∧ w ∈ splitWsWords TL ∧ w ∈ splitWsWords RT) ∨
      isSubstr TL RT = true ∨ isSubstr RT TL = true) := by
  simp only [Bool.or_eq_true, List.any_eq_true, List.mem_filter, decide_eq_true_eq,
    List.contains, List.elem_eq_mem]
  constructor
  · rintro (((⟨w, ⟨hm, hl⟩, hw⟩ | ⟨w, ⟨hm, hl⟩, hw⟩) | h) | h)
    · exact Or.inl ⟨w, hl, hm, (by simpa using hw : w ∈ splitWsWords RT ∧ 2 < w.length).1⟩
    · exact Or.inl ⟨w, hl, (by simpa using hw : w ∈ splitWsWords TL ∧ 2 < w.length).1, hm⟩
    · exact Or.inr (Or.inl h)
    · exact Or.inr (Or.inr h)
  · rintro (⟨w, hl, hm, hm2⟩ | h | h)
    · exact Or.inl (Or.inl (Or.inl ⟨w, ⟨hm, hl⟩, by simpa using And.intro hm2 hl⟩))
    · exact Or.inl (Or.inr h)
    · exact Or.inr h

/-- Claim C4: matchesResult returns true if and only if the artist clause
holds (no artist was expected, or containment either way, or some token of
length greater than 2 of the result-artist occurs in the expected artist)
and the title clause holds (the token sets of tokens longer than 2 share a
token, or one title is a substring of the other); in particular the two
concrete Beatles examples of the claim evaluate to true and false. -/
theorem claim_C4_theorem :
    (∀ (r : SearchResult) (t : Str) (a : Option Str),
        matchesResult r t a = true ↔ (specArtistMatch r a ∧ specTitleMatch r t)) ∧
    matchesResult ⟨some "Let It Be (Remastered 2009)".data, some "The Beatles".data⟩
        "Let It Be".data (some "The Beatles".data) = true ∧
    matchesResult ⟨some "Yesterday".data, some "The Beatles".data⟩
        "Let It Be".data (some "The Beatles".data) = false := by
  refine ⟨?_, by decide, by decide⟩
  intro r t a
  simp only [matchesResult, Bool.and_eq_true]
  rw [artistClause_iff, titleClause_iff]
  simp only [specArtistMatch, specTitleMatch]

/-- Witness for C4: the equivalence applied at a concrete matching input. -/
theorem claim_C4_witness :
    specArtistMatch ⟨some "Yesterday".data, some "The Beatles".data⟩
        (some "The Beatles".data) ∧
    specTitleMatch ⟨some "Yesterday".data, some "The Beatles".data⟩ "Yesterday".data :=
  (claim_C4_theorem.1 ⟨some "Yesterday".data, some "The Beatles".data⟩
    "Yesterday".data (some "The Beatles".data)).1 (by decide)

/- ===== Artwork Resolver (src/index.ts lines 313 to 421) ===== -/

/-- Outcome of one provider HTTP call as seen by a search helper: the fetch
or the body parse throws (network failure or malformed payload), the response
has a non-success status (response.ok false), or a parsed payload. -/
inductive FetchOutcome (α : Type) where
  | throwErr
  | notOk
  | ok (payload : α)
deriving DecidableEq

/-- The fields of one iTunes search result consumed by the source. -/
structure ItunesEntry where
  artworkUrl100 : Option Str
  trackName : Option Str
  artistName : Option Str
deriving DecidableEq

/-- Parsed body of an iTunes search response. -/
structure ItunesPayload where
  results : List ItunesEntry
deriving DecidableEq

/-- The fields of one Deezer search result consumed by the source; the
artist name and the four album covers are flattened from their optional
parent objects (absent parent yields absent field). -/
structure DeezerEntry where
  title : Option Str
  artistName : Option Str
  cover_xl : Option Str
  cover_big : Option Str
  cover_medium : Option Str
  cover_small : Option Str
deriving DecidableEq

/-- Parsed body of a Deezer search response; data can be absent. -/
structure DeezerPayload where
  data : Option (List DeezerEntry)
deriving DecidableEq

/-- Loop of searchItunes (lines 329 to 333): the first result with a truthy
artworkUrl100 that matches, upgraded to the 512x512 variant. -/
def itunesPick (expTitle : Str) (expArtist : Option Str) : List ItunesEntry → Option Str
  | [] => none
  | r :: rest =>
    if jsTruthyS r.artworkUrl100 &&
        matchesResult ⟨r.trackName, r.artistName⟩ expTitle expArtist then
      some (jsReplaceFirst (optStr r.artworkUrl100) "100x100".data "512x512".data)
    else itunesPick expTitle expArtist rest

/-- searchItunes (src/index.ts lines 313 to 335). The search term only
selects the HTTP response, which is supplied here as the outcome, so it is
not a separate argument; a thrown fetch or parse error propagates to the
caller as Except.error. -/
def searchItunes (outcome : FetchOutcome ItunesPayload) (expTitle : Str)
    (expArtist : Option Str) : Except Unit (Option Str) :=
  match outcome with
  | .throwErr => .error ()
  | .notOk => .ok none
  | .ok p => .ok (itunesPick expTitle expArtist p.results)

/-- JS or-chain over nullable strings: the first truthy value, if any. -/
def jsOrChain : List (Option Str) → Option Str
  | [] => none
  | o :: rest => if jsTruthyS o then o else jsOrChain rest

/-- Loop of searchDeezer (lines 352 to 365): the first matching track with a
truthy album cover, preferring xl, then big, medium, small; a matching track
without artwork does not stop the scan. -/
def deezerPick (expTitle : Str) (expArtist : Option Str) : List DeezerEntry → Option Str
  | [] => none
  | tr :: rest =>
    if matchesResult ⟨tr.title, tr.artistName⟩ expTitle expArtist then
      match jsOrChain [tr.cover_xl, tr.cover_big, tr.cover_medium, tr.cover_small] with
      | some a => some a
      | none => deezerPick expTitle expArtist rest
    else deezerPick expTitle expArtist rest

/-- searchDeezer (src/index.ts lines 337 to 368); an absent data field yields
no result, a thrown fetch or parse error propagates as Except.error. -/
def searchDeezer (outcome : FetchOutcome DeezerPayload) (expTitle : Str)
    (expArtist : Option Str) : Except Unit (Option Str) :=
  match outcome with
  | .throwErr => .error ()
  | .notOk => .ok none
  | .ok p =>
    match p.data with
    | none => .ok none
    | some l => .ok (deezerPick expTitle expArtist l)

/-- normalizedArtist of fetchArtworkUrl (line 379). -/
def normalizedArtistOf (artist : Option Str) : Option Str :=
  if jsTruthyS artist then some (normalizeSearchTerm (optStr artist)) else none

/-- firstArtist of fetchArtworkUrl (lines 380 to 381): the trimmed primary
artist, normalized, when truthy. -/
def firstArtistOf (artist : Option Str) : Option Str :=
  if jsTruthyS artist then
    match trimStr (getFirstArtist (optStr artist)) with
    | [] => none
    | c :: cs => some (normalizeSearchTerm (c :: cs))
  else none

/-- JS or on two nullable strings: the first when truthy, else the second. -/
def jsOrOptS (a b : Option Str) : Option Str := if jsTruthyS a then a else b

/-- expectedArtist of fetchArtworkUrl (line 382). -/
def expectedArtistOf (artist : Option Str) : Option Str :=
  jsOrOptS (firstArtistOf artist) (normalizedArtistOf artist)

/-- searchStrategies of fetchArtworkUrl (lines 385 to 395), in push order. -/
def searchStrategies (title : Str) (artist : Option Str) : List Str :=
  let normalizedTitle := normalizeSearchTerm title
  let normalizedArtist := normalizedArtistOf artist
  let firstArtist := firstArtistOf artist
  (if jsTruthyS artist then [trimStr title ++ ' ' :: trimStr (optStr artist)] else []) ++
  [trimStr title] ++
  (if jsTruthyS normalizedArtist then [normalizedTitle ++ ' ' :: optStr normalizedArtist]
    else []) ++
  (if jsTruthyS firstArtist && decide (firstArtist ≠ normalizedArtist) then
    [normalizedTitle ++ ' ' :: optStr firstArtist] else []) ++
  [normalizedTitle] ++
  (if jsTruthyS firstArtist then [optStr firstArtist] else [])

/-- Candidate loop of fetchArtworkUrl (lines 397 to 412): for each strategy,
Deezer first, then iTunes; provider responses are supplied as oracles indexed
by candidate position. Returns the outcome and the number of provider calls
performed; a thrown error escapes the loop as Except.error, to be caught only
by the try/catch wrapping the whole loop. -/
def tryStrategies (respD : Nat → FetchOutcome DeezerPayload)
    (respI : Nat → FetchOutcome ItunesPayload) (expTitle : Str)
    (expArtist : Option Str) : Nat → List Str → Except Unit (Option Str) × Nat
  | _, [] => (.ok none, 0)
  | i, _ :: rest =>
    match searchDeezer (respD i) expTitle expArtist with
    | .error () => (.error (), 1)
    | .ok (some url) => (.ok (some url), 1)
    | .ok none =>
      match searchItunes (respI i) expTitle expArtist with
      | .error () => (.error (), 2)
      | .ok (some url) => (.ok (some url), 2)
      | .ok none =>
        (fun res => (res.1, res.2 + 2))
          (tryStrategies respD respI expTitle expArtist (i + 1) rest)

/-- The artwork cache, an association list mirroring the Map of line 48;
values are a resolved URL or the explicit not-found marker none. -/
abbrev ArtworkCache := List (Str × Option Str)

def cacheLookup (k : Str) : ArtworkCache → Option (Option Str)
  | [] => none
  | (k2, v) :: rest => if k2 = k then some v else cacheLookup k rest

def cacheInsert (k : Str) (v : Option Str) (c : ArtworkCache) : ArtworkCache :=
  (k, v) :: c

/-- The raw cache key of fetchArtworkUrl (line 371): the title, a dash, and
the artist coerced to the empty string when null. -/
def artworkCacheKey (title : Str) (artist : Option Str) : Str :=
  title ++ '-' :: optStr artist

/-- fetchArtworkUrl (src/index.ts lines 370 to 421). The third component of
the result counts provider calls performed; stored urls are truthy so the
get-or-null read of a cache hit returns the stored value unchanged. Both the
not-found outcome and the catch-all error handler cache none; entries are
never removed. -/
def fetchArtworkUrl (cache : ArtworkCache) (title : Str) (artist : Option Str)
    (respD : Nat → FetchOutcome DeezerPayload)
    (respI : Nat → FetchOutcome ItunesPayload) : ArtworkCache × Option Str × Nat :=
  match cacheLookup (artworkCacheKey title artist) cache with
  | some v => (cache, v, 0)
  | none =>
    match tryStrategies respD respI (normalizeSearchTerm title) (expectedArtistOf artist)
        0 (searchStrategies title artist) with
    | (.ok (some url), n) => (cacheInsert (artworkCacheKey title artist) (some url) cache, some url, n)
    | (.ok none, n) => (cacheInsert (artworkCacheKey title artist) none cache, none, n)
    | (.error (), n) => (cacheInsert (artworkCacheKey title artist) none cache, none, n)

deriving instance DecidableEq for Except

lemma searchDeezer_ne_error (o : FetchOutcome DeezerPayload) (t : Str) (a : Option Str)
    (h : o ≠ .throwErr) : ∃ r, searchDeezer o t a = .ok r := by
  cases o with
  | throwErr => exact absurd rfl h
  | notOk => exact ⟨none, rfl⟩
  | ok p =>
    cases hp : p.data with
    | none => exact ⟨none, by simp [searchDeezer, hp]⟩
    | some l => exact ⟨deezerPick t a l, by simp [searchDeezer, hp]⟩

lemma searchItunes_ne_error (o : FetchOutcome ItunesPayload) (t : Str) (a : Option Str)
    (h : o ≠ .throwErr) : ∃ r, searchItunes o t a = .ok r := by
  cases o with
  | throwErr => exact absurd rfl h
  | notOk => exact ⟨none, rfl⟩
  | ok p => exact ⟨itunesPick t a p.results, rfl⟩

lemma searchStrategies_ne_nil (title : Str) (artist : Option Str) :
    searchStrategies title artist ≠ [] := by
  unfold searchStrategies
  cases h : jsTruthyS artist <;> simp [h]

/-- Counterexample to claim C2: with a cold cache, a Deezer call that throws
on the very first candidate makes the resolver cache and return the
not-found marker after a single provider call, even though the iTunes
response for that same candidate contains a matching artwork result the
claim would require to be consulted. -/
theorem claim_C2_counterexample :
    fetchArtworkUrl [] "Song".data none (fun _ => .throwErr)
        (fun _ => .ok ⟨[⟨some "x100x100y".data, some "Song".data, some "X".data⟩]⟩) =
      ([(artworkCacheKey "Song".data none, none)], none, 1) ∧
    searchItunes (.ok ⟨[⟨some "x100x100y".data, some "Song".data, some "X".data⟩]⟩)
        (normalizeSearchTerm "Song".data) (expectedArtistOf none) =
      .ok (some "x512x512y".data) := by decide

/-- Claim C2 (amended): a non-success HTTP status from either provider is
treated as no result for that provider and candidate only, and when no
provider call throws, the candidate loop never aborts with an error; but a
thrown provider error (network failure or malformed payload) propagates to
the try/catch wrapping the whole candidate loop, which caches the not-found
marker and returns it immediately, aborting the remaining candidates and the
other provider. -/
theorem claim_C2_theorem :
    (∀ t a, searchDeezer .notOk t a = Except.ok none) ∧
    (∀ t a, searchItunes .notOk t a = Except.ok none) ∧
    (∀ respD respI t a i l, (∀ j, respD j ≠ FetchOutcome.throwErr) →
      (∀ j, respI j ≠ FetchOutcome.throwErr) →
      (tryStrategies respD respI t a i l).1 ≠ Except.error ()) ∧
    (∀ cache title artist respD respI,
      cacheLookup (artworkCacheKey title artist) cache = none →
      respD 0 = FetchOutcome.throwErr →
      fetchArtworkUrl cache title artist respD respI =
        (cacheInsert (artworkCacheKey title artist) none cache, none, 1)) := by
  refine ⟨fun t a => rfl, fun t a => rfl, ?loop, ?abort⟩
  case loop =>
    intro respD respI t a i l hD hI
    induction l generalizing i with
    | nil => simp [tryStrategies]
    | cons s rest ih =>
      obtain ⟨rD, hD2⟩ := searchDeezer_ne_error (respD i) t a (hD i)
      simp only [tryStrategies, hD2]
      cases rD with
      | some url => simp
      | none =>
        obtain ⟨rI, hI2⟩ := searchItunes_ne_error (respI i) t a (hI i)
        simp only [hI2]
        cases rI with
        | some url => simp
        | none => simpa using ih (i + 1)
  case abort =>
    intro cache title artist respD respI hc hD
    obtain ⟨s, rest, hs⟩ :=
      List.exists_cons_of_ne_nil (searchStrategies_ne_nil title artist)
    simp only [fetchArtworkUrl, hc, hs, tryStrategies, hD, searchDeezer]

/-- Witness for C2: the amended behavior at concrete inputs; the aborting
branch applied to an empty cache with a throwing Deezer oracle. -/
theorem claim_C2_witness :
    fetchArtworkUrl [] "Ab".data none (fun _ => .throwErr) (fun _ => .notOk) =
      (cacheInsert (artworkCacheKey "Ab".data none) none [], none, 1) :=
  claim_C2_theorem.2.2.2 [] "Ab".data none (fun _ => .throwErr) (fun _ => .notOk)
    rfl rfl

/-- Counterexample to claim C6: the artwork cache is keyed by the raw
title-artist pair, not the normalized pair; two calls whose titles normalize
identically miss each other's entries, so the second call still performs
provider queries. -/
theorem claim_C6_counterexample :
    normalizeSearchTerm "Hello!".data = normalizeSearchTerm "Hello".data ∧
    (fetchArtworkUrl
        (fetchArtworkUrl [] "Hello!".data none (fun _ => .ok ⟨some []⟩)
          (fun _ => .ok ⟨[]⟩)).1
        "Hello".data none (fun _ => .ok ⟨some []⟩) (fun _ => .ok ⟨[]⟩)).2.2 ≠ 0 := by
  decide

/-- Claim C6 (amended): resolution is memoized by the raw pair (title,
artist-or-empty) joined with a dash: a second resolve call with the same raw
title and artist, whatever its provider oracles, returns the first call's
cached result and performs no provider queries; entries are never removed,
but raw inputs that merely normalize to the same pair use distinct entries
and do query again. -/
theorem claim_C6_theorem :
    ∀ cache title artist respD respI respD2 respI2,
      fetchArtworkUrl (fetchArtworkUrl cache title artist respD respI).1 title artist
          respD2 respI2 =
        ((fetchArtworkUrl cache title artist respD respI).1,
          (fetchArtworkUrl cache title artist respD respI).2.1, 0) := by
  intro cache title artist respD respI respD2 respI2
  cases h : cacheLookup (artworkCacheKey title artist) cache with
  | some v => simp [fetchArtworkUrl, h]
  | none =>
    rcases h2 : tryStrategies respD respI (normalizeSearchTerm title)
        (expectedArtistOf artist) 0 (searchStrategies title artist) with ⟨res, n⟩
    rcases res with u | o
    · cases u
      simp [fetchArtworkUrl, h, h2, cacheLookup, cacheInsert]
    · cases o <;> simp [fetchArtworkUrl, h, h2, cacheLookup, cacheInsert]

/- ===== Source Classifier (src/index.ts lines 16 to 42 and 244 to 264) ===== -/

/-- The fixed allow-list of Telegram bundle identifiers (lines 16 to 20). -/
def TELEGRAM_BUNDLE_IDS : List Str :=
  ["ru.keepcoder.Telegram".data, "org.telegram.desktop".data, "com.tdesktop.Telegram".data]

/-- The MediaSource enumeration (line 244); absence is Option.none. -/
inductive MediaSource where
  | telegram
  | youtubeMusic
deriving DecidableEq

/-- One entry of ytMusicPidCache (line 23). -/
structure YtEntry where
  isYtMusic : Bool
  timestamp : Int
deriving DecidableEq

/-- The pid cache, an association list mirroring the Map of line 23. -/
abbrev YtCache := List (Int × YtEntry)

def ytLookup (pid : Int) : YtCache → Option YtEntry
  | [] => none
  | (p, e) :: rest => if p = pid then some e else ytLookup pid rest

def ytInsert (pid : Int) (e : YtEntry) (c : YtCache) : YtCache := (pid, e) :: c

/-- YT_MUSIC_CACHE_TTL (line 24), in milliseconds. -/
def YT_MUSIC_CACHE_TTL : Int := 30000

/-- Outcome of the ps inspection of a process command line (line 34): the
command line text, or a thrown error. -/
inductive PsOutcome where
  | ok (args : Str)
  | throwErr
deriving DecidableEq

/-- Body of isYouTubeMusicPid past the cache check (lines 33 to 41): inspect
the command line, cache and return the result; a thrown inspection is caught
and cached as a non-match. -/
def isYouTubeMusicFresh (cache : YtCache) (now : Int) (outcome : PsOutcome)
    (pid : Int) : YtCache × Bool × Nat :=
  match outcome with
  | .ok args =>
    (ytInsert pid ⟨isSubstr "youtube music.app".data (toLowerStr args), now⟩ cache,
      isSubstr "youtube music.app".data (toLowerStr args), 1)
  | .throwErr => (ytInsert pid ⟨false, now⟩ cache, false, 1)

/-- isYouTubeMusicPid (src/index.ts lines 26 to 42). The third component
counts OS process inspections performed: 0 on a cache hit within the TTL,
1 otherwise. -/
def isYouTubeMusicPid (cache : YtCache) (now : Int) (outcome : PsOutcome)
    (pid : Int) : YtCache × Bool × Nat :=
  match ytLookup pid cache with
  | some e =>
    if now - e.timestamp < YT_MUSIC_CACHE_TTL then (cache, e.isYtMusic, 0)
    else isYouTubeMusicFresh cache now outcome pid
  | none => isYouTubeMusicFresh cache now outcome pid

/-- The client identity fields of the JXA result (src/index.ts lines 101 to 105). -/
structure SourceIdentity where
  bundleId : Option Str
  parentBundleId : Option Str
  processId : Option Int
deriving DecidableEq

/-- The effective bundle id computed by the snapshot normalizer
(src/index.ts lines 210 to 213): the JS or-chain of the parent application
bundle identifier, the bundle identifier, and null. -/
def effectiveBundleId (client : Option SourceIdentity) : Option Str :=
  match client with
  | none => none
  | some c => jsOrOptS c.parentBundleId (jsOrOptS c.bundleId none)

/-- JS truthiness of a nullable number (NaN aside, absent from the model). -/
def jsTruthyI (o : Option Int) : Bool :=
  match o with
  | some x => decide (x ≠ 0)
  | none => false

/-- NowPlayingSnapshot as normalized by getNowPlayingInfo
(src/index.ts lines 60 to 71). -/
structure NowPlayingInfo where
  title : Option Str
  artist : Option Str
  album : Option Str
  duration : Option Int
  elapsedTime : Option Int
  timestamp : Option Int
  playbackRate : Option Int
  bundleIdentifier : Option Str
  processIdentifier : Option Int
  isPlaying : Bool
deriving DecidableEq

/-- getMediaSource (src/index.ts lines 246 to 264), with the cache, tick
time and process inspection outcome of the embedded isYouTubeMusicPid call
passed explicitly. -/
def getMediaSource (cache : YtCache) (now : Int) (outcome : PsOutcome)
    (info : NowPlayingInfo) : YtCache × Option MediaSource :=
  if !jsTruthyS info.bundleIdentifier then (cache, none)
  else
    let bundleId := optStr info.bundleIdentifier
    if TELEGRAM_BUNDLE_IDS.any (fun id => toLowerStr bundleId == toLowerStr id) then
      (cache, some .telegram)
    else if bundleId = "app_mode_loader".data && jsTruthyI info.processIdentifier then
      let res := isYouTubeMusicPid cache now outcome (info.processIdentifier.getD 0)
      if res.2.1 then (res.1, some .youtubeMusic) else (res.1, none)
    else (cache, none)

/-- The snapshot fields a raw client identity contributes, all other fields
absent; classification only reads the bundle and process identifiers. -/
def infoOfClient (client : Option SourceIdentity) : NowPlayingInfo :=
  { title := none, artist := none, album := none, duration := none,
    elapsedTime := none, timestamp := none, playbackRate := none,
    bundleIdentifier := effectiveBundleId client,
    processIdentifier := match client with | some c => c.processId | none => none,
    isPlaying := false }

/-- Classification of a raw client identity: the normalizer's effective
bundle id computation followed by getMediaSource. -/
def classifyClient (cache : YtCache) (now : Int) (outcome : PsOutcome)
    (client : Option SourceIdentity) : YtCache × Option MediaSource :=
  getMediaSource cache now outcome (infoOfClient client)

/-- Claim C8's classifier, written from the claim's words: None when the
source identity is absent; the effective bundle id is the parent bundle id
if present, else the bundle id; Telegram on a case-insensitive exact match
against the allow-list; YouTubeMusic exactly when the effective id equals
the ambiguous loader identifier, a process id is present, and the auxiliary
lookup matches; None otherwise. -/
def classifySpecC8 (aux : Int → Bool) (client : Option SourceIdentity) :
    Option MediaSource :=
  match client with
  | none => none
  | some c =>
    match (match c.parentBundleId with | some p => some p | none => c.bundleId) with
    | none => none
    | some b =>
      if TELEGRAM_BUNDLE_IDS.any (fun id => toLowerStr b == toLowerStr id) then
        some .telegram
      else if b = "app_mode_loader".data then
        match c.processId with
        | some pid => if aux pid then some .youtubeMusic else none
        | none => none
      else none

/-- Claim C8's classifier amended by the counterexample: presence is JS
truthiness, so an empty parent bundle id falls through to the bundle id and
a process id of zero counts as absent. -/
def classifySpecC8A (aux : Int → Bool) (client : Option SourceIdentity) :
    Option MediaSource :=
  match client with
  | none => none
  | some c =>
    match (if jsTruthyS c.parentBundleId then c.parentBundleId
           else if jsTruthyS c.bundleId then c.bundleId else none) with
    | none => none
    | some b =>
      if TELEGRAM_BUNDLE_IDS.any (fun id => toLowerStr b == toLowerStr id) then
        some .telegram
      else if b = "app_mode_loader".data then
        match c.processId with
        | some pid => if decide (pid ≠ 0) && aux pid then some .youtubeMusic else none
        | none => none
      else none

/-- Counterexample to claim C8: for the ambiguous loader with process id 0
and an auxiliary lookup that matches, the claim's classifier must return
YouTubeMusic, but the code's JS truthiness test on the process id makes it
return None. -/
theorem claim_C8_counterexample :
    (isYouTubeMusicPid [] 0 (.ok "/Applications/YouTube Music.app".data) 0).2.1 = true ∧
    classifySpecC8
        (fun pid => (isYouTubeMusicPid [] 0
          (.ok "/Applications/YouTube Music.app".data) pid).2.1)
        (some ⟨some "app_mode_loader".data, none, some 0⟩) = some .youtubeMusic ∧
    (classifyClient [] 0 (.ok "/Applications/YouTube Music.app".data)
        (some ⟨some "app_mode_loader".data, none, some 0⟩)).2 = none := by
  decide

/-- Claim C8 (amended): classification agrees everywhere with the claim's
algorithm once presence is read as JS truthiness (an empty parent bundle id
falls through; process id 0 counts as absent); and an auxiliary lookup
failure is cached and treated as a non-match (fail closed), never raising. -/
theorem claim_C8_theorem :
    (∀ cache now outcome client,
      (classifyClient cache now outcome client).2 =
        classifySpecC8A
          (fun pid => (isYouTubeMusicPid cache now outcome pid).2.1) client) ∧
    (∀ cache now pid,
      isYouTubeMusicFresh cache now PsOutcome.throwErr pid =
        (ytInsert pid ⟨false, now⟩ cache, false, 1)) := by
  refine ⟨?equiv, fun cache now pid => rfl⟩
  intro cache now outcome client
  rcases client with _ | ⟨b, p, pid⟩
  · rfl
  · simp only [classifyClient, infoOfClient, getMediaSource, classifySpecC8A,
      effectiveBundleId, jsOrOptS]
    rcases hp : jsTruthyS p with _ | _
    · rcases hb : jsTruthyS b with _ | _
      · simp [hp, hb, jsTruthyS]
      · rcases b with _ | s
        · simp [jsTruthyS] at hb
        · simp only [hp, hb, if_false, if_true, Bool.false_eq_true, Bool.not_true,
            Bool.not_false, ite_true, ite_false]
          simp only [optStr, Option.getD]
          rcases ht : TELEGRAM_BUNDLE_IDS.any (fun id => toLowerStr s == toLowerStr id) with _ | _
          · simp only [ht, if_false, Bool.false_eq_true, ite_false]
            rcases hl : decide (s = "app_mode_loader".data) with _ | _
            · simp only [Bool.and_eq_true, decide_eq_true_eq] at hl ⊢
              have hs : ¬ s = "app_mode_loader".data := of_decide_eq_false hl
              simp [hs]
            · have hs : s = "app_mode_loader".data := of_decide_eq_true hl
              subst hs
              rcases pid with _ | v
              · simp [jsTruthyI]
              · rcases hv : decide (v ≠ 0) with _ | _
                · simp [jsTruthyI, hv]
                · simp only [jsTruthyI, hv, Bool.true_and, if_true, ite_true]
                  split <;> rfl
          · simp [ht]
    · rcases p with _ | s
      · simp [jsTruthyS] at hp
      · simp only [hp, if_true, Bool.not_true, Bool.false_eq_true, ite_false, ite_true]
        simp only [optStr, Option.getD]
        rcases ht : TELEGRAM_BUNDLE_IDS.any (fun id => toLowerStr s == toLowerStr id) with _ | _
        · simp only [ht, if_false, Bool.false_eq_true, ite_false]
          rcases hl : decide (s = "app_mode_loader".data) with _ | _
          · have hs : ¬ s = "app_mode_loader".data := of_decide_eq_false hl
            simp [hs]
          · have hs : s = "app_mode_loader".data := of_decide_eq_true hl
            subst hs
            rcases pid with _ | v
            · simp [jsTruthyI]
            · rcases hv : decide (v ≠ 0) with _ | _
              · simp [jsTruthyI, hv]
              · simp only [jsTruthyI, hv, Bool.true_and, if_true, ite_true]
                split <;> rfl
        · simp [ht]

lemma ytLookup_insert (pid : Int) (e : YtEntry) (cache : YtCache) :
    ytLookup pid (ytInsert pid e cache) = some e := by
  simp [ytLookup, ytInsert]

lemma isYouTubeMusicPid_cases (cache : YtCache) (now : Int) (o : PsOutcome)
    (pid : Int) :
    (∃ b, isYouTubeMusicPid cache now o pid = (cache, b, 0)) ∨
    (∃ b, isYouTubeMusicPid cache now o pid = (ytInsert pid ⟨b, now⟩ cache, b, 1)) := by
  unfold isYouTubeMusicPid isYouTubeMusicFresh
  cases hc : ytLookup pid cache with
  | none =>
    cases o with
    | ok args => exact Or.inr ⟨_, rfl⟩
    | throwErr => exact Or.inr ⟨false, rfl⟩
  | some e =>
    by_cases ht : now - e.timestamp < YT_MUSIC_CACHE_TTL
    · exact Or.inl ⟨e.isYtMusic, by simp [ht]⟩
    · cases o with
      | ok args =>
        exact Or.inr ⟨isSubstr "youtube music.app".data (toLowerStr args), by simp [ht]⟩
      | throwErr => exact Or.inr ⟨false, by simp [ht]⟩

lemma isYouTubeMusicPid_count_le_one (cache : YtCache) (now : Int) (o : PsOutcome)
    (pid : Int) : (isYouTubeMusicPid cache now o pid).2.2 ≤ 1 := by
  rcases isYouTubeMusicPid_cases cache now o pid with ⟨b, hb⟩ | ⟨b, hb⟩ <;>
    simp [hb]

/-- Counterexample to claim C9: with an entry cached at time 0, a call at
29999 hits the cache (returning the cached false) and a second call 2
milliseconds later at 30001 finds the entry expired, performs a fresh
inspection and returns true; the two calls are within 30 seconds of each
other, yet the later call does not return the cached boolean. -/
theorem claim_C9_counterexample :
    ((30001 : Int) - 29999 < YT_MUSIC_CACHE_TTL) ∧
    isYouTubeMusicPid [((5 : Int), ⟨false, 0⟩)] 29999
        (.ok "/Applications/YouTube Music.app".data) 5 =
      ([((5 : Int), ⟨false, 0⟩)], false, 0) ∧
    isYouTubeMusicPid [((5 : Int), ⟨false, 0⟩)] 30001
        (.ok "/Applications/YouTube Music.app".data) 5 =
      (ytInsert 5 ⟨true, 30001⟩ [((5 : Int), ⟨false, 0⟩)], true, 1) := by
  decide

/-- Claim C9 (amended): two consecutive calls for the same pid whose tick
times are within the 30 second TTL perform at most one OS inspection in
total; when the earlier call itself performed the inspection, the later call
returns the boolean it cached and performs no inspection; and a failed
inspection is cached as a non-match for the same TTL. -/
theorem claim_C9_theorem :
    (∀ cache now1 now2 o1 o2 pid, now2 - now1 < YT_MUSIC_CACHE_TTL →
      (isYouTubeMusicPid cache now1 o1 pid).2.2 +
        (isYouTubeMusicPid (isYouTubeMusicPid cache now1 o1 pid).1 now2 o2 pid).2.2 ≤ 1) ∧
    (∀ cache now1 now2 o1 o2 pid, now2 - now1 < YT_MUSIC_CACHE_TTL →
      (isYouTubeMusicPid cache now1 o1 pid).2.2 = 1 →
      isYouTubeMusicPid (isYouTubeMusicPid cache now1 o1 pid).1 now2 o2 pid =
        ((isYouTubeMusicPid cache now1 o1 pid).1,
          (isYouTubeMusicPid cache now1 o1 pid).2.1, 0)) ∧
    (∀ cache now pid,
      isYouTubeMusicFresh cache now PsOutcome.throwErr pid =
        (ytInsert pid ⟨false, now⟩ cache, false, 1)) := by
  refine ⟨?count, ?cached, fun cache now pid => rfl⟩
  case count =>
    intro cache now1 now2 o1 o2 pid h
    rcases isYouTubeMusicPid_cases cache now1 o1 pid with ⟨b, hb⟩ | ⟨b, hb⟩
    · rw [hb]
      simpa using isYouTubeMusicPid_count_le_one cache now2 o2 pid
    · rw [hb]
      simp [isYouTubeMusicPid, ytLookup_insert, h]
  case cached =>
    intro cache now1 now2 o1 o2 pid h h1
    rcases isYouTubeMusicPid_cases cache now1 o1 pid with ⟨b, hb⟩ | ⟨b, hb⟩
    · rw [hb] at h1
      simp at h1
    · rw [hb]
      simp [isYouTubeMusicPid, ytLookup_insert, h]

/-- Witness for C9: the cached-return branch applied after a fresh
inspection at time 0 and a second call at time 100. -/
theorem claim_C9_witness :
    isYouTubeMusicPid
        (isYouTubeMusicPid [] 0 (.ok "youtube music.app".data) 7).1 100
        PsOutcome.throwErr 7 =
      ((isYouTubeMusicPid [] 0 (.ok "youtube music.app".data) 7).1,
        (isYouTubeMusicPid [] 0 (.ok "youtube music.app".data) 7).2.1, 0) :=
  claim_C9_theorem.2.1 [] 0 100 (.ok "youtube music.app".data) PsOutcome.throwErr 7
    (by decide) (by decide)

/- ===== Presence Lifecycle Controller (src/index.ts lines 643 to 737) ===== -/

/-- The mutable track state of the controller (lines 51 to 55). The
connection and pause flags are written by external callbacks and only read
by a tick. -/
structure AppState where
  lastTrack : Option Str
  currentTrackId : Option Str
  currentTrackStartTime : Option Int
  isConnected : Bool
  isPaused : Bool
deriving DecidableEq

/-- The activity payload of the setActivity call (lines 716 to 727). -/
structure Activity where
  name : Str
  details : Str
  state : Str
  startTimestamp : Int
  endTimestamp : Option Int
  largeImageKey : Str
  largeImageText : Str
  smallImageKey : Str
  smallImageText : Str
deriving DecidableEq

/-- The externally visible action of one tick: a setActivity push, a
clearActivity call, or no protocol call at all. -/
inductive Effect where
  | push (a : Activity)
  | clear
  | noCall
deriving DecidableEq

/-- JS template interpolation of a nullable string: null prints as the word
null. -/
def jsTemplateOpt (o : Option Str) : Str :=
  match o with
  | some s => s
  | none => "null".data

/-- The track identity key (line 651): title, artist and album joined with
dashes by JS template interpolation. -/
def mkTrackId (info : NowPlayingInfo) : Str :=
  jsTemplateOpt info.title ++
    '-' :: (jsTemplateOpt info.artist ++ '-' :: jsTemplateOpt info.album)

/-- isPlaying of one tick (line 648): reported playing with a truthy,
strictly positive playback rate; an absent rate is falsy. -/
def isActivePlayback (info : NowPlayingInfo) : Bool :=
  info.isPlaying && jsTruthyI info.playbackRate &&
    decide (0 < info.playbackRate.getD 0)

/-- actualElapsedMs (lines 679 to 684): defined only when both the elapsed
time and its sample timestamp are present. -/
def computeActualElapsedMs (elapsed ts : Option Int) (now : Int) : Option Int :=
  match elapsed, ts with
  | some e, some t => some (e * 1000 + (now - t))
  | _, _ => none

/-- The JS or-fallback applied to the recorded start time (line 689): a
recorded value of 0 is falsy and falls through to now. -/
def jsOrNum (o : Option Int) (d : Int) : Int :=
  match o with
  | some x => if x = 0 then d else x
  | none => d

/-- startTimestamp (lines 686 to 689). -/
def computeStartTimestamp (elapsed ts record : Option Int) (now : Int) : Int :=
  match computeActualElapsedMs elapsed ts now with
  | some a => now - a
  | none => jsOrNum record now

/-- endTimestamp (lines 690 to 693): present exactly when the duration is
non-null. -/
def computeEndTimestamp (duration : Option Int) (start : Int) : Option Int :=
  match duration with
  | some d => some (start + d * 1000)
  | none => none

/-- Decimal digits of a natural number. -/
def natToStr (n : Nat) : Str := Nat.toDigits 10 n

/-- JS Number.prototype.toString for integral values. -/
def intToStr (i : Int) : Str :=
  if i < 0 then '-' :: natToStr i.natAbs else natToStr i.toNat

/-- JS padStart(2, zero). -/
def padStart2Zero (s : Str) : Str := List.replicate (2 - s.length) '0' ++ s

/-- The minutes:seconds rendering of a duration (lines 673 to 675):
Math.floor of the quotient by 60, and the remainder (JS remainder truncates
toward zero) zero-padded to two digits. -/
def fmtMinSec (d : Int) : Str :=
  intToStr (Int.fdiv d 60) ++ ':' :: padStart2Zero (intToStr (Int.tmod d 60))

/-- The pad-below-2 step applied to details and the display name
(lines 668 and 699). -/
def padMin2 (s : Str) : Str := if s.length < 2 then s ++ [' '] else s

/-- The truncate-above-127 step (lines 669, 700, 709 and 713). -/
def trunc127 (s : Str) : Str := if s.length > 127 then s.take 127 else s

/-- The in-place mutation applied to info.title and info.album before
setActivity (lines 708 to 714): pad when the length is exactly 1, then
truncate above 127. -/
def adjustSentText (s : Str) : Str :=
  trunc127 (if s.length = 1 then s ++ [' '] else s)

/-- The title mutation (lines 708 to 709), through the optional chain. -/
def adjustSentTitle (o : Option Str) : Option Str := Option.map adjustSentText o

/-- The album mutation (lines 711 to 714), guarded by album truthiness. -/
def adjustSentAlbum (o : Option Str) : Option Str :=
  if jsTruthyS o then Option.map adjustSentText o else o

/-- details of one active tick (lines 667 to 669): the title (or the
Unknown Track fallback), padded below 2 and truncated above 127. -/
def detailsField (info : NowPlayingInfo) : Str :=
  trunc127 (padMin2
    (if jsTruthyS info.title then optStr info.title else "Unknown Track".data))

/-- state of one active tick (lines 671 to 676): the artist (or the Unknown
Artist fallback), with the rendered duration appended when truthy. -/
def stateField (info : NowPlayingInfo) : Str :=
  (fun state0 => if jsTruthyI info.duration then
      state0 ++ " • ".data ++ fmtMinSec (info.duration.getD 0)
    else state0)
  (if jsTruthyS info.artist then optStr info.artist else "Unknown Artist".data)

/-- displayName of one active tick (lines 695 to 700): title dash artist
when an artist is present (the title interpolated, so null would print as
the word null), else the title or the Music fallback; padded below 2 and
truncated above 127. -/
def displayNameField (info : NowPlayingInfo) : Str :=
  trunc127 (padMin2
    (if jsTruthyS info.artist then
      jsTemplateOpt info.title ++ " - ".data ++ optStr info.artist
    else if jsTruthyS info.title then optStr info.title else "Music".data))

/-- The source label (line 705). -/
def sourceTextOf (ms : MediaSource) : Str :=
  match ms with
  | .youtubeMusic => "YouTube Music".data
  | .telegram => "Telegram".data

/-- The icon key shared by smallImageKey and the artwork fallback
(lines 703 to 704). -/
def sourceKeyOf (ms : MediaSource) : Str :=
  match ms with
  | .youtubeMusic => "youtube-music".data
  | .telegram => "telegram".data

/-- The activity built by one active tick (lines 665 to 727), with the
awaited artwork result and the recorded track start time passed in. -/
def buildActivity (info : NowPlayingInfo) (ms : MediaSource) (artworkUrl : Option Str)
    (record : Option Int) (now : Int) : Activity :=
  let start := computeStartTimestamp info.elapsedTime info.timestamp record now
  let endT := computeEndTimestamp info.duration start
  let sentTitle := adjustSentTitle info.title
  let sentAlbum := adjustSentAlbum info.album
  { name := displayNameField info
    details := (detailsField info).take 128
    state := (stateField info).take 128
    startTimestamp := start
    endTimestamp := match endT with
      | some e => if e = 0 then none else some e
      | none => none
    largeImageKey := if jsTruthyS artworkUrl then optStr artworkUrl
      else sourceKeyOf ms
    largeImageText := if jsTruthyS sentAlbum then optStr sentAlbum
      else if jsTruthyS sentTitle then optStr sentTitle else sourceTextOf ms
    smallImageKey := sourceKeyOf ms
    smallImageText := if jsTruthyS sentTitle then optStr sentTitle
      else "Playing via ".data ++ sourceTextOf ms }

/-- The stopped/paused branch of updatePresence (lines 728 to 736): a
single clear call, with the local bookkeeping reset, only when a track was
being shown. -/
def clearStep (st : AppState) : AppState × Effect :=
  if st.lastTrack.isSome then
    ({ st with
        lastTrack := none, currentTrackId := none,
        currentTrackStartTime := none }, Effect.clear)
  else (st, Effect.noCall)

/-- One tick of updatePresence (src/index.ts lines 643 to 737). The media
source classification and the artwork resolution are awaited calls whose
results are passed in. -/
def updatePresence (st : AppState) (info : NowPlayingInfo)
    (mediaSource : Option MediaSource) (artworkUrl : Option Str) (now : Int) :
    AppState × Effect :=
  if !st.isConnected || st.isPaused then (st, Effect.noCall)
  else
    match mediaSource with
    | some ms =>
      if jsTruthyS info.title && isActivePlayback info then
        let trackId := mkTrackId info
        let st1 := if st.lastTrack = some trackId then st
          else { st with
            lastTrack := some trackId, currentTrackId := some trackId,
            currentTrackStartTime := some now }
        (st1, Effect.push (buildActivity info ms artworkUrl st1.currentTrackStartTime now))
      else clearStep st
    | none => clearStep st

/-- Claim C7: on a connected, unpaused tick with no supported source, no
title, or no active playback, a Cleared state (no last pushed track) makes
the tick a no-op with no protocol call, while an Active state issues exactly
one clear call together with the reset of the local track bookkeeping. -/
theorem claim_C7_theorem :
    ∀ st info ms art now, st.isConnected = true → st.isPaused = false →
      (ms = none ∨ jsTruthyS info.title = false ∨ isActivePlayback info = false) →
      ((st.lastTrack = none → updatePresence st info ms art now = (st, Effect.noCall)) ∧
       (∀ k, st.lastTrack = some k →
         updatePresence st info ms art now =
           ({ st with
              lastTrack := none, currentTrackId := none,
              currentTrackStartTime := none }, Effect.clear))) := by
  intro st info ms art now hconn hpause hcond
  have hstep : updatePresence st info ms art now = clearStep st := by
    simp only [updatePresence, hconn, hpause, Bool.not_true, Bool.false_or]
    rcases hcond with h | h | h
    · subst h
      rfl
    · cases ms with
      | none => rfl
      | some m => simp [h]
    · cases ms with
      | none => rfl
      | some m => simp [h]
  constructor
  · intro hl
    rw [hstep]
    simp [clearStep, hl]
  · intro k hl
    rw [hstep]
    simp [clearStep, hl]

/-- Witness for C7: the no-op branch on a fully cleared state and the
clearing branch on an active state, at concrete inputs. -/
theorem claim_C7_witness :
    updatePresence ⟨none, none, none, true, false⟩
        ⟨none, none, none, none, none, none, none, none, none, false⟩
        none none 3 =
      (⟨none, none, none, true, false⟩, Effect.noCall) ∧
    updatePresence ⟨some "k".data, some "k".data, some 7, true, false⟩
        ⟨none, none, none, none, none, none, none, none, none, false⟩
        none none 3 =
      (⟨none, none, none, true, false⟩, Effect.clear) :=
  ⟨(claim_C7_theorem ⟨none, none, none, true, false⟩
      ⟨none, none, none, none, none, none, none, none, none, false⟩
      none none 3 rfl rfl (Or.inl rfl)).1 rfl,
   (claim_C7_theorem ⟨some "k".data, some "k".data, some 7, true, false⟩
      ⟨none, none, none, none, none, none, none, none, none, false⟩
      none none 3 rfl rfl (Or.inl rfl)).2 "k".data rfl⟩

/-- Claim C10: when the playback rate is absent from the snapshot, the tick
never pushes a presence update, even when the OS reports playing, and it
behaves exactly as if the snapshot carried a paused rate of 0. -/
theorem claim_C10_theorem :
    ∀ st info ms art now, info.playbackRate = none →
      (∀ a, (updatePresence st info ms art now).2 ≠ Effect.push a) ∧
      updatePresence st info ms art now =
        updatePresence st { info with playbackRate := some 0 } ms art now := by
  intro st info ms art now hrate
  have hap : isActivePlayback info = false := by
    simp [isActivePlayback, hrate, jsTruthyI]
  have hap0 : isActivePlayback { info with playbackRate := some 0 } = false := by
    simp [isActivePlayback, jsTruthyI]
  have hns : ∀ (s : AppState) (a : Activity), (clearStep s).2 ≠ Effect.push a := by
    intro s a
    unfold clearStep
    split <;> simp
  constructor
  · intro a
    simp only [updatePresence, hap, Bool.and_false]
    by_cases hc : (!st.isConnected || st.isPaused) = true
    · simp [hc]
    · simp only [hc, Bool.false_eq_true, if_false, ite_false]
      cases ms with
      | none => exact hns st a
      | some m => simpa using hns st a
  · simp [updatePresence, hap, hap0]

/-- Witness for C10: a connected, unpaused tick with a reported-playing
snapshot whose rate is unknown acts exactly like the rate-0 snapshot. -/
theorem claim_C10_witness :
    updatePresence ⟨some "k".data, none, none, true, false⟩
        ⟨some "T".data, none, none, none, none, none, none, none, none, true⟩
        (some .telegram) none 9 =
      updatePresence ⟨some "k".data, none, none, true, false⟩
        ⟨some "T".data, none, none, none, none, none, some 0, none, none, true⟩
        (some .telegram) none 9 :=
  (claim_C10_theorem ⟨some "k".data, none, none, true, false⟩
      ⟨some "T".data, none, none, none, none, none, none, none, none, true⟩
      (some .telegram) none 9 rfl).2

/-- Counterexample to claim C1: the controller compares dash-joined keys,
not triples. Snapshots with titles a-b and a, artists c and b-c and equal
albums d have different triples but the same key a-b-c-d, so the second tick
is treated as the same track: the start time recorded at the first tick
(1000) is not reset to the second tick's clock (6000), although the claim
requires a reset whenever the triples differ. -/
theorem claim_C1_counterexample :
    (⟨some "a-b".data, some "c".data, some "d".data, none, none, none,
        some 1, none, none, true⟩ : NowPlayingInfo).title ≠
      (⟨some "a".data, some "b-c".data, some "d".data, none, none, none,
        some 1, none, none, true⟩ : NowPlayingInfo).title ∧
    mkTrackId ⟨some "a-b".data, some "c".data, some "d".data, none, none, none,
        some 1, none, none, true⟩ =
      mkTrackId ⟨some "a".data, some "b-c".data, some "d".data, none, none, none,
        some 1, none, none, true⟩ ∧
    (updatePresence
        (updatePresence ⟨none, none, none, true, false⟩
          ⟨some "a-b".data, some "c".data, some "d".data, none, none, none,
            some 1, none, none, true⟩ (some .telegram) none 1000).1
        ⟨some "a".data, some "b-c".data, some "d".data, none, none, none,
          some 1, none, none, true⟩
        (some .telegram) none 6000).1.currentTrackStartTime = some 1000 := by
  decide

/-- Claim C1 (amended): the controller treats two snapshots as the same
track if and only if their dash-joined keys title-artist-album (with null
fields printed as the word null) are equal; equal triples always yield equal
keys, so identical triples across ticks never reset the start time, and on a
connected, unpaused, actively playing tick the new start time is the old one
exactly when the key equals the last pushed key and the current tick's clock
otherwise. Distinct triples whose fields contain dashes can collide and are
then not detected as a track change. -/
theorem claim_C1_theorem :
    (∀ i1 i2 : NowPlayingInfo, i1.title = i2.title → i1.artist = i2.artist →
      i1.album = i2.album → mkTrackId i1 = mkTrackId i2) ∧
    (∀ st info ms art now, st.isConnected = true → st.isPaused = false →
      jsTruthyS info.title = true → isActivePlayback info = true →
      (updatePresence st info (some ms) art now).1.currentTrackStartTime =
        (if st.lastTrack = some (mkTrackId info) then st.currentTrackStartTime
          else some now) ∧
      (updatePresence st info (some ms) art now).1.lastTrack =
        some (mkTrackId info)) := by
  constructor
  · intro i1 i2 h1 h2 h3
    simp [mkTrackId, h1, h2, h3]
  · intro st info ms art now hconn hpause htitle hplay
    simp only [updatePresence, hconn, hpause, htitle, hplay, Bool.not_true,
      Bool.false_or, Bool.and_self, if_true, ite_true]
    by_cases hl : st.lastTrack = some (mkTrackId info)
    · simp [hl]
    · simp [hl]

/-- Witness for C1: a fresh state records the tick clock as the start time
and the dash-joined key as the last track. -/
theorem claim_C1_witness :
    (updatePresence ⟨none, none, none, true, false⟩
        ⟨some "So".data, none, none, none, none, none, some 1, none, none, true⟩
        (some .telegram) none 777).1.currentTrackStartTime = some 777 ∧
    (updatePresence ⟨none, none, none, true, false⟩
        ⟨some "So".data, none, none, none, none, none, some 1, none, none, true⟩
        (some .telegram) none 777).1.lastTrack =
      some (mkTrackId ⟨some "So".data, none, none, none, none, none,
        some 1, none, none, true⟩) := by
  have h := claim_C1_theorem.2 ⟨none, none, none, true, false⟩
    ⟨some "So".data, none, none, none, none, none, some 1, none, none, true⟩
    MediaSource.telegram none 777 rfl rfl (by decide) (by decide)
  refine ⟨?_, h.2⟩
  rw [h.1]
  decide

/-- Claim C3: when both the elapsed seconds and the sample timestamp are
present the computed start equals now minus (elapsed times 1000 plus the
staleness of the sample), in particular 35000 milliseconds before the tick
for elapsed 30 sampled 5000 milliseconds ago, independently of the previous
ticks; with either value absent the start falls back to the recorded track
start time (a wall-clock reading, hence nonzero) or to now when no record
exists; the end timestamp is start plus duration times 1000 exactly when the
duration is known. -/
theorem claim_C3_theorem :
    (∀ (e t : Int) (record : Option Int) (now : Int),
      computeStartTimestamp (some e) (some t) record now =
        now - (e * 1000 + (now - t))) ∧
    (∀ (T : Int) (record : Option Int),
      computeStartTimestamp (some 30) (some T) record (T + 5000) =
        (T + 5000) - 35000) ∧
    (∀ (elapsed ts record : Option Int) (now : Int), elapsed = none ∨ ts = none →
      (record = none → computeStartTimestamp elapsed ts record now = now) ∧
      (∀ r, record = some r → r ≠ 0 →
        computeStartTimestamp elapsed ts record now = r)) ∧
    (∀ (d s : Int), computeEndTimestamp (some d) s = some (s + d * 1000)) ∧
    (∀ s : Int, computeEndTimestamp none s = none) := by
  refine ⟨fun e t record now => rfl, ?inst, ?fallback, fun d s => rfl, fun s => rfl⟩
  case inst =>
    intro T record
    show (T + 5000) - (30 * 1000 + ((T + 5000) - T)) = (T + 5000) - 35000
    omega
  case fallback =>
    intro elapsed ts record now h
    have habs : computeActualElapsedMs elapsed ts now = none := by
      rcases h with h | h
      · subst h
        cases ts <;> rfl
      · subst h
        cases elapsed <;> rfl
    constructor
    · intro hr
      subst hr
      simp [computeStartTimestamp, habs, jsOrNum]
    · intro r hr hr0
      subst hr
      simp [computeStartTimestamp, habs, jsOrNum, hr0]

/-- Witness for C3: the fallback clauses applied at concrete inputs. -/
theorem claim_C3_witness :
    computeStartTimestamp none none (some 5) 77 = 5 ∧
    computeStartTimestamp none (some 9) none 77 = 77 ∧
    computeStartTimestamp (some 30) (some 100) none (100 + 5000) =
      (100 + 5000) - 35000 :=
  ⟨(claim_C3_theorem.2.2.1 none none (some 5) 77 (Or.inl rfl)).2 5 rfl (by decide),
   (claim_C3_theorem.2.2.1 none (some 9) none 77 (Or.inl rfl)).1 rfl,
   claim_C3_theorem.2.1 100 none⟩

/-- Reachability support for C3: every recorded track start time is a tick
clock reading, so when ticks happen at positive wall-clock times the record
stays positive (in particular nonzero, as the fallback clause of
claim_C3_theorem assumes). -/
lemma trackStartTime_pos_invariant (st : AppState) (info : NowPlayingInfo)
    (ms : Option MediaSource) (art : Option Str) (now : Int)
    (hst : ∀ r, st.currentTrackStartTime = some r → 0 < r) (hnow : 0 < now) :
    ∀ r, (updatePresence st info ms art now).1.currentTrackStartTime = some r →
      0 < r := by
  intro r
  unfold updatePresence clearStep
  split
  · exact hst r
  · split
    · split
      · dsimp only
        split
        · exact hst r
        · intro h
          simp only [Option.some_inj] at h
          omega
      · split
        · simp
        · exact hst r
    · split
      · simp
      · exact hst r

lemma jsTruthyS_of_one_le (s : Str) (h : 1 ≤ s.length) : jsTruthyS (some s) = true := by
  cases s with
  | nil => simp at h
  | cons c cs => simp [jsTruthyS]

lemma length_padMin2_trunc127 (s : Str) (h1 : 1 ≤ s.length) :
    2 ≤ (trunc127 (padMin2 s)).length ∧ (trunc127 (padMin2 s)).length ≤ 127 := by
  unfold padMin2 trunc127
  split_ifs <;> simp_all [List.length_take, List.length_append]

lemma length_adjustSentText (s : Str) (h1 : 1 ≤ s.length) :
    2 ≤ (adjustSentText s).length ∧ (adjustSentText s).length ≤ 127 := by
  unfold adjustSentText trunc127
  split_ifs <;> simp_all [List.length_take, List.length_append] <;> omega

lemma length_detailsField (info : NowPlayingInfo) :
    2 ≤ (detailsField info).length ∧ (detailsField info).length ≤ 127 := by
  unfold detailsField
  apply length_padMin2_trunc127
  split_ifs with h
  · cases ht : info.title with
    | none => rw [ht] at h; simp [jsTruthyS] at h
    | some s =>
      cases s with
      | nil => rw [ht] at h; simp [jsTruthyS] at h
      | cons c cs => simp [ht, optStr]
  · simp

lemma length_displayNameField (info : NowPlayingInfo) :
    2 ≤ (displayNameField info).length ∧ (displayNameField info).length ≤ 127 := by
  unfold displayNameField
  apply length_padMin2_trunc127
  split_ifs with h h2
  · simp only [List.length_append, List.length_cons, List.length_nil]
    omega
  · cases ht : info.title with
    | none => rw [ht] at h2; simp [jsTruthyS] at h2
    | some s =>
      cases s with
      | nil => rw [ht] at h2; simp [jsTruthyS] at h2
      | cons c cs => simp [ht, optStr]
  · simp

lemma length_sourceTextOf (m : MediaSource) :
    2 ≤ (sourceTextOf m).length ∧ (sourceTextOf m).length ≤ 127 := by
  cases m <;> simp [sourceTextOf]

/-- Length bounds of every text field of a pushed activity when the title is
truthy (which every active tick guarantees): name, details, largeImageText
and smallImageText lie between 2 and 127, details is further capped by the
final take of 128, and state is only capped at 128, with no lower bound. -/
lemma buildActivity_bounds (info : NowPlayingInfo) (m : MediaSource)
    (art : Option Str) (record : Option Int) (now : Int)
    (htitle : jsTruthyS info.title = true) :
    2 ≤ (buildActivity info m art record now).name.length ∧
    (buildActivity info m art record now).name.length ≤ 127 ∧
    2 ≤ (buildActivity info m art record now).details.length ∧
    (buildActivity info m art record now).details.length ≤ 127 ∧
    (buildActivity info m art record now).state.length ≤ 128 ∧
    2 ≤ (buildActivity info m art record now).largeImageText.length ∧
    (buildActivity info m art record now).largeImageText.length ≤ 127 ∧
    2 ≤ (buildActivity info m art record now).smallImageText.length ∧
    (buildActivity info m art record now).smallImageText.length ≤ 127 := by
  obtain ⟨ts0, hts, h1⟩ : ∃ ts0, info.title = some ts0 ∧ 1 ≤ ts0.length := by
    cases ht : info.title with
    | none => rw [ht] at htitle; simp [jsTruthyS] at htitle
    | some s =>
      cases s with
      | nil => rw [ht] at htitle; simp [jsTruthyS] at htitle
      | cons c cs => exact ⟨c :: cs, rfl, by simp⟩
  have hname := length_displayNameField info
  have hdet := length_detailsField info
  have hadj := length_adjustSentText ts0 h1
  have hsentTitle : adjustSentTitle info.title = some (adjustSentText ts0) := by
    rw [hts]; rfl
  have htruthy : jsTruthyS (adjustSentTitle info.title) = true := by
    rw [hsentTitle]
    exact jsTruthyS_of_one_le _ (by omega)
  have hsrc := length_sourceTextOf m
  simp only [buildActivity]
  have hne : adjustSentText ts0 ≠ [] := by
    intro he
    rw [he] at hadj
    simp at hadj
  refine ⟨hname.1, hname.2, ?_, ?_, ?_, ?_, ?_, ?_, ?_⟩
  · rw [List.length_take]; omega
  · rw [List.length_take]; omega
  · rw [List.length_take]; omega
  · cases hal : info.album with
    | none => simp [adjustSentAlbum, jsTruthyS, hsentTitle, optStr, hne, hadj.1]
    | some al =>
      cases al with
      | nil => simp [adjustSentAlbum, jsTruthyS, hsentTitle, optStr, hne, hadj.1]
      | cons c cs =>
        have hb := length_adjustSentText (c :: cs) (by simp)
        have hbne : adjustSentText (c :: cs) ≠ [] := by
          intro he
          rw [he] at hb
          simp at hb
        simp [adjustSentAlbum, jsTruthyS, optStr, hbne, hb.1]
  · cases hal : info.album with
    | none => simp [adjustSentAlbum, jsTruthyS, hsentTitle, optStr, hne, hadj.2]
    | some al =>
      cases al with
      | nil => simp [adjustSentAlbum, jsTruthyS, hsentTitle, optStr, hne, hadj.2]
      | cons c cs =>
        have hb := length_adjustSentText (c :: cs) (by simp)
        have hbne : adjustSentText (c :: cs) ≠ [] := by
          intro he
          rw [he] at hb
          simp at hb
        simp [adjustSentAlbum, jsTruthyS, optStr, hbne, hb.2]
  · simp [jsTruthyS, hsentTitle, optStr, hne, hadj.1]
  · simp [jsTruthyS, hsentTitle, optStr, hne, hadj.2]

/-- Inversion of a pushed tick: a push happens only on a classified source
with a truthy title, and the pushed activity is the built one. -/
lemma updatePresence_push_inversion (st : AppState) (info : NowPlayingInfo)
    (ms : Option MediaSource) (art : Option Str) (now : Int) (a : Activity)
    (h : (updatePresence st info ms art now).2 = Effect.push a) :
    jsTruthyS info.title = true ∧
    ∃ m record, ms = some m ∧ a = buildActivity info m art record now := by
  unfold updatePresence clearStep at h
  split at h
  · simp at h
  · split at h
    · split at h
      · rename_i m heq hcond
        dsimp only at h
        simp only [Effect.push.injEq] at h
        rw [Bool.and_eq_true] at hcond
        exact ⟨hcond.1, heq, _, rfl, h.symm⟩
      · split at h <;> simp at h
    · split at h <;> simp at h

/-- Counterexample to claim C5: an active tick with a one-character artist
and no duration pushes an activity whose state field has length 1, below the
minimum of 2 that the claim requires of every user-visible text field. -/
theorem claim_C5_counterexample :
    (updatePresence ⟨none, none, none, true, false⟩
        ⟨some "So".data, some "A".data, none, none, none, none,
          some 1, none, none, true⟩ (some .telegram) none 50).2 =
      Effect.push (buildActivity
        ⟨some "So".data, some "A".data, none, none, none, none,
          some 1, none, none, true⟩ .telegram none (some 50) 50) ∧
    (buildActivity ⟨some "So".data, some "A".data, none, none, none, none,
        some 1, none, none, true⟩ .telegram none (some 50) 50).state = "A".data ∧
    (buildActivity ⟨some "So".data, some "A".data, none, none, none, none,
        some 1, none, none, true⟩ .telegram none (some 50) 50).state.length = 1 := by
  decide

/-- Claim C5 (amended): in every pushed presence update the name, details,
largeImageText and smallImageText fields have between 2 and 127 characters
(details after its final cap of 128, which never bites) and the state field
is truncated to at most 128 characters but is never padded, so a
one-character artist with no duration yields a one-character state; in
particular a title of length 1 is sent with length 2 and a title of length
200 is sent with length 127. -/
theorem claim_C5_theorem :
    (∀ st info ms art now a, (updatePresence st info ms art now).2 = Effect.push a →
      2 ≤ a.name.length ∧ a.name.length ≤ 127 ∧
      2 ≤ a.details.length ∧ a.details.length ≤ 127 ∧
      a.state.length ≤ 128 ∧
      2 ≤ a.largeImageText.length ∧ a.largeImageText.length ≤ 127 ∧
      2 ≤ a.smallImageText.length ∧ a.smallImageText.length ≤ 127) ∧
    (adjustSentText ['x']).length = 2 ∧
    (adjustSentText (List.replicate 200 'x')).length = 127 := by
  refine ⟨?_, by decide, by decide⟩
  intro st info ms art now a h
  obtain ⟨htitle, m, record, hms, ha⟩ :=
    updatePresence_push_inversion st info ms art now a h
  subst ha
  exact buildActivity_bounds info m art record now htitle

/-- Witness for C5: the bounds applied to the activity pushed by a concrete
active tick. -/
theorem claim_C5_witness :
    2 ≤ (buildActivity ⟨some "So".data, some "Ab".data, none, none, none, none,
        some 1, none, none, true⟩ MediaSource.telegram none (some 4) 4).name.length :=
  (claim_C5_theorem.1 ⟨none, none, none, true, false⟩
    ⟨some "So".data, some "Ab".data, none, none, none, none, some 1, none, none, true⟩
    (some MediaSource.telegram) none 4
    (buildActivity ⟨some "So".data, some "Ab".data, none, none, none, none,
      some 1, none, none, true⟩ MediaSource.telegram none (some 4) 4)
    (by decide)).1

end MusicPresence
